import Mathlib

/-!
Shallow embedding of the `permit-agent` service (src/main.py): a
single-endpoint HTTP service that forwards a question to an external
chat-completion API and relays the answer.  The handler bodies are
translated into pure Lean functions; the external completion call is
abstracted as an `UpstreamOutcome` parameter, and the functions also
return a record of the outbound call that was attempted (if any).
-/

/-- Python truthiness of `os.getenv` results: `None` and the empty string
are falsy, every other string is truthy (src/main.py line 20:
`client = OpenAI(api_key=OPENAI_API_KEY) if OPENAI_API_KEY else None`). -/
def pyTruthy : Option String → Bool
  | none => false
  | some s => !s.isEmpty

/-- The OpenAI client handle; holds the api key it was constructed with. -/
structure Client where
  apiKey : String
deriving DecidableEq

/-- Module-initialization of the process-wide client handle from the
`OPENAI_API_KEY` environment variable (src/main.py lines 13-20). -/
def clientInit (env : Option String) : Option Client :=
  if pyTruthy env then some ⟨env.getD ""⟩ else none

/-- Python `str.strip()` with no arguments: remove surrounding whitespace. -/
def pyStrip (s : String) : String := s.trim

/-- The request schema: `class PermitRequest(BaseModel): question: str`
(src/main.py lines 33-34). -/
structure PermitRequest where
  question : String
deriving DecidableEq

/-- One role-tagged outgoing prompt message (src/main.py lines 60-69). -/
structure ChatMessage where
  role : String
  content : String
deriving DecidableEq

/-- The message inside a returned choice; `content` is optional in the
upstream API, and an absent content makes extraction fail. -/
structure CompletionMessage where
  content : Option String
deriving DecidableEq

/-- One candidate response returned by the completion API. -/
structure Choice where
  message : CompletionMessage
deriving DecidableEq

/-- The raw upstream completion result.  `pyStr` carries the (opaque)
result of Python `str(completion)`, used by the fallback path. -/
structure Completion where
  choices : List Choice
  pyStr : String
deriving DecidableEq

/-- The parameters of one outbound `client.chat.completions.create` call
(src/main.py lines 72-77). -/
structure CompletionCall where
  model : String
  messages : List ChatMessage
  temperature : ℚ
  max_tokens : ℕ
deriving DecidableEq

/-- Outcome of the external completion call: it either raises an
exception (abstracted as its type name and message) or returns a raw
completion value. -/
inductive UpstreamOutcome where
  | raises (excType : String) (excMsg : String)
  | returns (completion : Completion)
deriving DecidableEq

/-- Response of the `/ask` handler: either HTTP 200 with body
`(answer := ...)` or an `HTTPException` with a status and detail. -/
inductive AskResponse where
  | ok (answer : String)
  | httpError (status : ℕ) (detail : String)
deriving DecidableEq

/-- The fixed system instruction (src/main.py lines 62-66). -/
def systemInstruction : String :=
  "You are a helpful permitting assistant. Answer clearly and concisely in plain text. " ++
  "If you\x27re unsure, advise checking with the local building department."

/-- The fixed configuration-error detail (src/main.py line 56). -/
def configErrDetail : String := "Server misconfigured: OPENAI_API_KEY not set."

/-- Extraction of the first choice text, `completion.choices[0].message.content.strip()`
inside its own try/except (src/main.py lines 80-86): `none` models any
exception during extraction (`IndexError` on an empty choice list,
`AttributeError` when `content` is `None`). -/
def extractChoiceText (c : Completion) : Option String :=
  match c.choices.head? with
  | none => none
  | some ch =>
    match ch.message.content with
    | none => none
    | some t => some (pyStrip t)

/-- The `/ask` handler body (src/main.py lines 49-94), after schema
validation.  Returns the response together with the outbound completion
call that was attempted, `none` when no call was made. -/
def ask (client : Option Client) (req : PermitRequest) (upstream : UpstreamOutcome) :
    AskResponse × Option CompletionCall :=
  match client with
  | none => (.httpError 500 configErrDetail, none)
  | some _ =>
    let messages : List ChatMessage :=
      [⟨"system", systemInstruction⟩, ⟨"user", req.question⟩]
    let call : CompletionCall := ⟨"gpt-4o-mini", messages, 0.2, 800⟩
    match upstream with
    | .raises ty msg =>
      (.httpError 500 ("AI error: " ++ ty ++ ": " ++ msg), some call)
    | .returns completion =>
      let content : String :=
        match extractChoiceText completion with
        | some t => t
        | none => completion.pyStr
      (.ok content, some call)

/-- A minimal JSON value type for request bodies. -/
inductive Json where
  | str (s : String)
  | num (n : Int)
  | bool (b : Bool)
  | null
  | arr (xs : List Json)
  | obj (fields : List (String × Json))

/-- First value bound to `key` in a JSON object's field list. -/
def jsonLookup (key : String) : List (String × Json) → Option Json
  | [] => none
  | (k, v) :: rest => if k = key then some v else jsonLookup key rest

/-- Modelled from the spec: the web framework's standard schema-validation
of a `POST /ask` body against `PermitRequest` (FastAPI/pydantic code, not
in src).  The body must be a JSON object whose `question` field is a
string; anything else is rejected before the handler body runs. -/
def validatePermitRequest : Json → Except String PermitRequest
  | .obj fields =>
    match jsonLookup "question" fields with
    | some (.str s) => .ok ⟨s⟩
    | some _ => .error "question: Input should be a valid string"
    | none => .error "question: Field required"
  | _ => .error "Input should be a valid dictionary"

/-- Modelled from the spec: the full `POST /ask` route, framework
validation (a 422 validation error, no handler run, no outbound call)
followed by the handler body. -/
def askRoute (client : Option Client) (body : Json) (upstream : UpstreamOutcome) :
    AskResponse × Option CompletionCall :=
  match validatePermitRequest body with
  | .error e => (.httpError 422 e, none)
  | .ok req => ask client req upstream

/-- Whether a response is a client-error (4xx) status. -/
def is4xx : AskResponse → Bool
  | .ok _ => false
  | .httpError s _ => decide (400 ≤ s ∧ s < 500)

/-- The `GET /` handler (src/main.py lines 36-43). -/
def root : Json :=
  .obj [("message", .str ("Permit Agent service is running. Use /docs for interactive API docs or POST /ask with JSON \x7b\"question\":\"...\"\x7d."))]

/-- The `GET /health` handler (src/main.py lines 45-47). -/
def health : Json :=
  .obj [("ok", .bool true)]

/-- C1: for every `POST /ask` request with non-empty question `q`, if the
upstream completion call succeeds and first-choice extraction yields the
raw text `t` (`choices[0].message.content = t`), the handler returns
status 200 with body exactly `(answer := pyStrip t)`. -/
theorem ask_success_strips_choice_text (c : Client) (req : PermitRequest)
    (comp : Completion) (t : String) (hq : req.question ≠ "")
    (ht : (comp.choices.head?.bind fun ch => ch.message.content) = some t) :
    (ask (some c) req (.returns comp)).1 = .ok (pyStrip t) := by
  cases hcs : comp.choices.head? with
  | none => rw [hcs] at ht; simp at ht
  | some ch =>
    rw [hcs] at ht
    rw [Option.some_bind] at ht
    simp [ask, extractChoiceText, hcs, ht]

/-- Witness for C1 at a concrete input: question "May I build a deck?",
single choice with content "  yes  ". -/
theorem ask_success_strips_choice_text_witness :
    (ask (some ⟨"k"⟩) ⟨"May I build a deck?"⟩
        (.returns ⟨[⟨⟨some "  yes  "⟩⟩], "RAW"⟩)).1 = .ok (pyStrip "  yes  ") :=
  ask_success_strips_choice_text ⟨"k"⟩ ⟨"May I build a deck?"⟩
    ⟨[⟨⟨some "  yes  "⟩⟩], "RAW"⟩ "  yes  " (by decide) rfl

/-- C2: when `OPENAI_API_KEY` is absent at startup the client handle is
unconfigured, and every `/ask` call returns HTTP 500 with the fixed
detail "Server misconfigured: OPENAI_API_KEY not set.", with no outbound
completion call attempted, regardless of the request. -/
theorem ask_unconfigured_fails_fast (req : PermitRequest) (up : UpstreamOutcome) :
    ask (clientInit none) req up = (.httpError 500 configErrDetail, none) := by
  rfl

/-- C3: if the outbound completion call raises an exception of type `ty`
with message `msg`, the handler returns HTTP 500 whose detail is exactly
"AI error: " ++ ty ++ ": " ++ msg. -/
theorem ask_upstream_exception_detail (c : Client) (req : PermitRequest)
    (ty msg : String) :
    (ask (some c) req (.raises ty msg)).1 =
      .httpError 500 ("AI error: " ++ ty ++ ": " ++ msg) := by
  rfl

/-- C4: when the upstream call returns a completion but first-choice
extraction fails, the handler still returns status 200, with the answer
set to the stringified raw completion. -/
theorem ask_extraction_fallback (c : Client) (req : PermitRequest)
    (comp : Completion) (h : extractChoiceText comp = none) :
    (ask (some c) req (.returns comp)).1 = .ok comp.pyStr := by
  simp [ask, h]

/-- Witness for C4 at a concrete input: completion with an empty choice
list (extraction raises `IndexError`). -/
theorem ask_extraction_fallback_witness :
    (ask (some ⟨"k"⟩) ⟨"hi"⟩ (.returns ⟨[], "RAW"⟩)).1 = .ok "RAW" :=
  ask_extraction_fallback ⟨"k"⟩ ⟨"hi"⟩ ⟨[], "RAW"⟩ rfl

/-- C5: whenever `/ask` sends an outbound completion call, its prompt is
exactly two messages in order: the fixed system instruction, then the
user's question verbatim. -/
theorem ask_prompt_two_messages (client : Option Client) (req : PermitRequest)
    (up : UpstreamOutcome) (call : CompletionCall)
    (h : (ask client req up).2 = some call) :
    call.messages = [⟨"system", systemInstruction⟩, ⟨"user", req.question⟩] := by
  cases client with
  | none => simp [ask] at h
  | some c =>
    cases up with
    | raises ty msg => simp [ask] at h; rw [← h]
    | returns comp => simp [ask] at h; rw [← h]

/-- Witness for C5 at a concrete input. -/
theorem ask_prompt_two_messages_witness :
    (CompletionCall.mk "gpt-4o-mini"
        [⟨"system", systemInstruction⟩, ⟨"user", "q"⟩] 0.2 800).messages =
      [⟨"system", systemInstruction⟩, ⟨"user", "q"⟩] :=
  ask_prompt_two_messages (some ⟨"k"⟩) ⟨"q"⟩ (.raises "E" "m") _ rfl

/-- C6: every outbound completion call made by `/ask` uses model
"gpt-4o-mini", temperature 0.2 and max_tokens 800, identically for all
requests. -/
theorem ask_fixed_call_params (client : Option Client) (req : PermitRequest)
    (up : UpstreamOutcome) (call : CompletionCall)
    (h : (ask client req up).2 = some call) :
    call.model = "gpt-4o-mini" ∧ call.temperature = 0.2 ∧ call.max_tokens = 800 := by
  cases client with
  | none => simp [ask] at h
  | some c =>
    cases up with
    | raises ty msg => simp [ask] at h; rw [← h]; exact ⟨rfl, rfl, rfl⟩
    | returns comp => simp [ask] at h; rw [← h]; exact ⟨rfl, rfl, rfl⟩

/-- Witness for C6 at a concrete input. -/
theorem ask_fixed_call_params_witness :
    (CompletionCall.mk "gpt-4o-mini"
        [⟨"system", systemInstruction⟩, ⟨"user", "q"⟩] 0.2 800).model = "gpt-4o-mini" ∧
    (CompletionCall.mk "gpt-4o-mini"
        [⟨"system", systemInstruction⟩, ⟨"user", "q"⟩] 0.2 800).temperature = 0.2 ∧
    (CompletionCall.mk "gpt-4o-mini"
        [⟨"system", systemInstruction⟩, ⟨"user", "q"⟩] 0.2 800).max_tokens = 800 :=
  ask_fixed_call_params (some ⟨"k"⟩) ⟨"q"⟩ (.raises "E" "m") _ rfl

/-- C7: a `POST /ask` body that fails to deserialize into the
single-field schema — the `question` field missing, a non-string
`question` value, or a non-object body — is rejected with a 4xx
validation error and no outbound completion call is attempted. -/
theorem askRoute_invalid_body_rejected (client : Option Client)
    (body : Json) (up : UpstreamOutcome) (e : String)
    (h : validatePermitRequest body = .error e) :
    is4xx (askRoute client body up).1 = true ∧
      (askRoute client body up).2 = none := by
  simp [askRoute, h, is4xx]

/-- Witness for C7 at a concrete input: the empty-object body, whose
validation fails with the missing-field error. -/
theorem askRoute_invalid_body_rejected_witness :
    is4xx (askRoute (some ⟨"k"⟩) (.obj []) (.raises "E" "m")).1 = true ∧
      (askRoute (some ⟨"k"⟩) (.obj []) (.raises "E" "m")).2 = none :=
  askRoute_invalid_body_rejected (some ⟨"k"⟩) (.obj []) (.raises "E" "m")
    "question: Field required" rfl

/-- C8: a body whose `question` field is a string `s` passes schema
validation (no non-emptiness constraint), and the route forwards the
question to the handler like any other. -/
theorem askRoute_string_question_validates (client : Option Client)
    (fields : List (String × Json)) (up : UpstreamOutcome) (s : String)
    (h : jsonLookup "question" fields = some (.str s)) :
    validatePermitRequest (.obj fields) = .ok ⟨s⟩ ∧
      askRoute client (.obj fields) up = ask client ⟨s⟩ up := by
  constructor
  · simp [validatePermitRequest, h]
  · simp [askRoute, validatePermitRequest, h]

/-- Witness for C8 at a concrete input: the empty question string. -/
theorem askRoute_string_question_validates_witness :
    validatePermitRequest (.obj [("question", .str "")]) = .ok ⟨""⟩ ∧
      askRoute (some ⟨"k"⟩) (.obj [("question", .str "")]) (.raises "E" "m") =
        ask (some ⟨"k"⟩) ⟨""⟩ (.raises "E" "m") :=
  askRoute_string_question_validates (some ⟨"k"⟩) [("question", .str "")]
    (.raises "E" "m") "" rfl

/-- C9: the client handle is fixed at module initialization and never
mutated by a handler (every handler is a pure function of it), so
whether `/ask` takes the configuration-error branch (HTTP 500 with the
fixed detail and no outbound call) is the same for every request served
with the same handle. -/
theorem ask_config_branch_uniform (client : Option Client)
    (req₁ req₂ : PermitRequest) (up₁ up₂ : UpstreamOutcome) :
    ask client req₁ up₁ = (.httpError 500 configErrDetail, none) ↔
      ask client req₂ up₂ = (.httpError 500 configErrDetail, none) := by
  cases client with
  | none => rfl
  | some c =>
    cases up₁ <;> cases up₂ <;> simp [ask]

/-- C10: characterization of the `/ask` answer on a returned completion:
the `.strip()` normalization is applied only when first-choice extraction
succeeds; when extraction fails the answer is the stringified raw
completion, with no whitespace trimming applied to it. -/
theorem ask_strip_only_on_success (c : Client) (req : PermitRequest)
    (comp : Completion) :
    (ask (some c) req (.returns comp)).1 =
      .ok (match comp.choices.head?.bind (fun ch => ch.message.content) with
        | some t => pyStrip t
        | none => comp.pyStr) := by
  cases hcs : comp.choices.head? with
  | none => simp [ask, extractChoiceText, hcs]
  | some ch =>
    cases hct : ch.message.content with
    | none => simp [ask, extractChoiceText, hcs, hct]
    | some t => simp [ask, extractChoiceText, hcs, hct]
